import Mathlib

/-!
Verification of the `call_llm` module (utils/call_llm.py): a thin client
around a local Ollama inference endpoint with a disk-backed response cache
and file logging.  The Python code is embedded shallowly: every effect of a
single invocation of `call_llm` (log lines, reads of the cache file, the
endpoint invocation, the cache write) is made explicit, and the
environment the call runs in (the environment variable, the disk content
at each of the two reads, the endpoint outcome, the write outcome) is
passed as an explicit `World` value.
-/

namespace CallLLM

/-- `cache_file = "llm_cache.json"` in the source. -/
def cache_file : String := "llm_cache.json"

/-- The fixed default model identifier, `os.getenv("OLLAMA_MODEL", "qwen2.5-32k")`. -/
def default_model : String := "qwen2.5-32k"

/-- The state of the cache file on disk at the moment it is read:
absent (`os.path.exists` is false), present but unreadable or not valid
JSON (`json.load` / `open` raises, with failure detail `err`), or present
and holding a JSON object, modelled as an association list. -/
inductive DiskState
  | absent
  | corrupt (err : String)
  | valid (entries : List (String × String))
deriving DecidableEq

/-- Outcome of `ollama.generate`: either a raw response text or a raised
exception with detail `err` (any failure inside the `try` block). -/
inductive LLMResult
  | success (raw : String)
  | failure (err : String)
deriving DecidableEq

/-- One observable effect of a call: a log line at some severity, an
access to the cache file, or an invocation of the external endpoint. -/
inductive Event
  | logInfo (msg : String)
  | logWarning (msg : String)
  | logError (msg : String)
  | readCacheFile
  | generate (model : String) (prompt : String)
deriving DecidableEq

/-- The environment one invocation of `call_llm` runs in: the
`OLLAMA_MODEL` variable, the disk state at the first cache load (`d1`)
and at the reload before saving (`d2`, an independent read that may see a
different state), the endpoint outcome, and the cache-write outcome
(`none` = write succeeds, `some e` = `IOError` with detail `e`). -/
structure World where
  envModel : Option String
  d1 : DiskState
  d2 : DiskState
  llm : LLMResult
  writeErr : Option String

/-- Exact-match lookup in the cache mapping (`prompt in cache` / `cache[prompt]`). -/
def lookupEntry : List (String × String) → String → Option String
  | [], _ => none
  | (k, v) :: rest, key => if k = key then some v else lookupEntry rest key

/-- `cache[prompt] = response`: overwrite the entry if the key is present,
append it otherwise; all other entries are kept. -/
def insertEntry : List (String × String) → String → String → List (String × String)
  | [], key, val => [(key, val)]
  | (k, v) :: rest, key, val =>
      if k = key then (key, val) :: rest else (k, v) :: insertEntry rest key val

/-- The mapping obtained from a disk state: a missing or unreadable file
yields the empty mapping. -/
def loadMap : DiskState → List (String × String)
  | DiskState.absent => []
  | DiskState.corrupt _ => []
  | DiskState.valid m => m

/-- Events of the first cache load (the `if os.path.exists` block before
the lookup): the file is consulted, and only a present-but-unreadable file
produces a warning. A missing file is silent. -/
def loadEvents : DiskState → List Event
  | DiskState.corrupt e =>
      [Event.readCacheFile,
       Event.logWarning ("Failed to load cache file \x27" ++ cache_file ++ "\x27: "
         ++ e ++ ". Starting with empty cache.")]
  | _ => [Event.readCacheFile]

/-- Events of the reload before saving (second, independent read). -/
def reloadEvents : DiskState → List Event
  | DiskState.corrupt e =>
      [Event.readCacheFile,
       Event.logWarning ("Failed to reload cache before saving: " ++ e
         ++ ". Overwriting might occur.")]
  | _ => [Event.readCacheFile]

/-- The model identifier used by the live call:
`os.getenv("OLLAMA_MODEL", "qwen2.5-32k")`. -/
def modelOf (w : World) : String := w.envModel.getD default_model

/-- The sentinel string returned when the endpoint call fails:
`f"Error: Could not get response from Ollama. Details: \x7be\x7d"`. -/
def errorMessage (e : String) : String :=
  "Error: Could not get response from Ollama. Details: " ++ e

/-- The result of one invocation: the returned string, the ordered trace
of effects, and the mapping written to the cache file (`none` when the
call never (successfully) writes the file). -/
structure CallResult where
  response : String
  trace : List Event
  written : Option (List (String × String))
deriving DecidableEq

/-- The live path of `call_llm` (the `try` block onward): pick the model,
invoke the endpoint, on failure log and return the sentinel, on success
trim, log, and if caching is enabled reload the cache, insert the entry
and save (a failed save is logged and the response still returned). -/
def liveCall (prompt : String) (use_cache : Bool) (w : World) : CallResult :=
  let model := modelOf w
  let ev := [Event.logInfo ("Calling Ollama model: " ++ model),
             Event.generate model prompt]
  match w.llm with
  | LLMResult.failure e =>
      { response := errorMessage e
        trace := ev ++ [Event.logError ("Error calling Ollama: " ++ e)]
        written := none }
  | LLMResult.success raw =>
      let response_text := raw.trim
      let ev := ev ++ [Event.logInfo ("RESPONSE (Ollama): " ++ response_text)]
      if use_cache then
        let newMap := insertEntry (loadMap w.d2) prompt response_text
        match w.writeErr with
        | none =>
            { response := response_text
              trace := ev ++ reloadEvents w.d2
              written := some newMap }
        | some e =>
            { response := response_text
              trace := ev ++ reloadEvents w.d2
                ++ [Event.logError ("Failed to save cache to \x27" ++ cache_file
                      ++ "\x27: " ++ e)]
              written := none }
      else
        { response := response_text, trace := ev, written := none }

/-- `call_llm(prompt, use_cache)`: log the prompt; with caching enabled
load the cache and return a hit immediately; otherwise take the live
path. -/
def call_llm (prompt : String) (use_cache : Bool) (w : World) : CallResult :=
  let ev0 := [Event.logInfo ("PROMPT: " ++ prompt)]
  if use_cache then
    let ev1 := loadEvents w.d1
    match lookupEntry (loadMap w.d1) prompt with
    | some r =>
        { response := r
          trace := ev0 ++ ev1 ++ [Event.logInfo ("RESPONSE (cached): " ++ r)]
          written := none }
    | none =>
        let lc := liveCall prompt true w
        { lc with trace := ev0 ++ ev1 ++ lc.trace }
  else
    let lc := liveCall prompt false w
    { lc with trace := ev0 ++ lc.trace }

/-- Whether a trace contains an invocation of the external endpoint. -/
def callsEndpoint (t : List Event) : Bool :=
  t.any fun ev => match ev with
    | Event.generate _ _ => true
    | _ => false

/-- Whether a trace contains an access to the cache file. -/
def touchesCache (t : List Event) : Bool :=
  t.any fun ev => match ev with
    | Event.readCacheFile => true
    | _ => false

/-- Whether a trace contains a warning-severity log line. -/
def hasWarning (t : List Event) : Bool :=
  t.any fun ev => match ev with
    | Event.logWarning _ => true
    | _ => false

/-- Inserting an entry makes its value the one looked up at its key. -/
theorem lookup_insertEntry_self (m : List (String × String)) (k v : String) :
    lookupEntry (insertEntry m k v) k = some v := by
  induction m with
  | nil => simp [insertEntry, lookupEntry]
  | cons hd tl ih =>
      obtain ⟨k', v'⟩ := hd
      by_cases h : k' = k
      · simp [insertEntry, lookupEntry, h]
      · simp [insertEntry, lookupEntry, h, ih]

/-- Inserting an entry leaves the lookup of every other key unchanged. -/
theorem lookup_insertEntry_ne (m : List (String × String)) (k v k' : String)
    (h : k' ≠ k) : lookupEntry (insertEntry m k v) k' = lookupEntry m k' := by
  induction m with
  | nil => simp [insertEntry, lookupEntry, Ne.symm h]
  | cons hd tl ih =>
      obtain ⟨a, b⟩ := hd
      by_cases ha : a = k
      · subst ha
        simp [insertEntry, lookupEntry, Ne.symm h]
      · by_cases hb : a = k'
        · subst hb
          simp [insertEntry, lookupEntry, ha]
        · simp [insertEntry, lookupEntry, ha, hb, ih]

/-- Claim C1: when caching is enabled and the on-disk cache mapping
contains the prompt as a key, `call_llm` returns the cached value and the
trace contains no invocation of the external endpoint. -/
theorem cache_hit_short_circuits (p r : String) (m : List (String × String))
    (w : World) (hd : w.d1 = DiskState.valid m)
    (hr : lookupEntry m p = some r) :
    (call_llm p true w).response = r ∧
    callsEndpoint (call_llm p true w).trace = false := by
  simp only [call_llm, hd, loadMap, loadEvents, hr]
  simp [callsEndpoint]

theorem cache_hit_short_circuits_witness :
    (call_llm "p" true
        ⟨none, DiskState.valid [("p", "r")], DiskState.absent,
         LLMResult.success "x", none⟩).response = "r" ∧
    callsEndpoint (call_llm "p" true
        ⟨none, DiskState.valid [("p", "r")], DiskState.absent,
         LLMResult.success "x", none⟩).trace = false :=
  cache_hit_short_circuits "p" "r" [("p", "r")] _ rfl (by decide)

/-- Claim C5: with caching disabled, `call_llm` always invokes the
external endpoint, whatever the cache file holds. -/
theorem cache_bypass_invokes_endpoint (p : String) (w : World) :
    callsEndpoint (call_llm p false w).trace = true := by
  simp only [call_llm, liveCall]
  cases hl : w.llm with
  | failure e => simp [callsEndpoint]
  | success raw => simp [callsEndpoint]

/-- Claim C10: with caching disabled, `call_llm` never reads the cache
file and never writes it, whether the external call succeeds or fails. -/
theorem cache_bypass_frame (p : String) (w : World) :
    (call_llm p false w).written = none ∧
    touchesCache (call_llm p false w).trace = false := by
  simp only [call_llm, liveCall]
  cases hl : w.llm with
  | failure e => simp [touchesCache]
  | success raw => simp [touchesCache]

/-- Claim C2: when the endpoint call fails, `call_llm` does not propagate
the fault (the embedding is a total function): it returns the fixed
recognizable sentinel followed by the failure detail, and logs the
failure at error severity. -/
theorem endpoint_failure_returns_sentinel (p e : String) (uc : Bool) (w : World)
    (hl : w.llm = LLMResult.failure e)
    (hm : uc = true → lookupEntry (loadMap w.d1) p = none) :
    (call_llm p uc w).response
      = "Error: Could not get response from Ollama. Details: " ++ e ∧
    Event.logError ("Error calling Ollama: " ++ e) ∈ (call_llm p uc w).trace := by
  cases uc with
  | false => simp [call_llm, liveCall, hl, errorMessage]
  | true =>
      have hm' := hm rfl
      simp [call_llm, liveCall, hl, hm', errorMessage]

theorem endpoint_failure_returns_sentinel_witness :
    (call_llm "p" true
        ⟨none, DiskState.absent, DiskState.absent,
         LLMResult.failure "boom", none⟩).response
      = "Error: Could not get response from Ollama. Details: " ++ "boom" ∧
    Event.logError ("Error calling Ollama: " ++ "boom")
      ∈ (call_llm "p" true
        ⟨none, DiskState.absent, DiskState.absent,
         LLMResult.failure "boom", none⟩).trace :=
  endpoint_failure_returns_sentinel "p" "boom" true _ rfl (fun _ => rfl)

/-- Claim C3 counterexample: with the cache file missing (and caching
enabled) the call succeeds but logs no warning at all, so the claim that a
warning is logged whenever reading the cache file fails because it is
missing or invalid is false on the missing case. -/
theorem missing_cache_file_logs_no_warning :
    hasWarning (call_llm "p" true
      ⟨none, DiskState.absent, DiskState.absent,
       LLMResult.success "r", none⟩).trace = false := rfl

/-- Claim C3 (amended): if the cache file is missing or holds invalid
content, `call_llm` with caching enabled treats the cache as empty and
still proceeds down the live path (never propagating a fault, since the
embedding is total); a warning is logged exactly in the invalid-content
case, not when the file is merely missing. -/
theorem cache_load_failure_resilience (p e : String) (w : World)
    (hd : w.d1 = DiskState.corrupt e ∨ w.d1 = DiskState.absent) :
    (call_llm p true w).response = (liveCall p true w).response ∧
    (call_llm p true w).written = (liveCall p true w).written ∧
    (w.d1 = DiskState.corrupt e →
      Event.logWarning ("Failed to load cache file \x27" ++ cache_file ++ "\x27: "
          ++ e ++ ". Starting with empty cache.")
        ∈ (call_llm p true w).trace) := by
  rcases hd with hd | hd
  · simp [call_llm, hd, loadMap, loadEvents, lookupEntry]
  · simp [call_llm, hd, loadMap, loadEvents, lookupEntry]

theorem cache_load_failure_resilience_witness :
    (call_llm "p" true
        ⟨none, DiskState.corrupt "bad json", DiskState.absent,
         LLMResult.success "r", none⟩).response
      = (liveCall "p" true
        ⟨none, DiskState.corrupt "bad json", DiskState.absent,
         LLMResult.success "r", none⟩).response ∧
    (call_llm "p" true
        ⟨none, DiskState.corrupt "bad json", DiskState.absent,
         LLMResult.success "r", none⟩).written
      = (liveCall "p" true
        ⟨none, DiskState.corrupt "bad json", DiskState.absent,
         LLMResult.success "r", none⟩).written ∧
    ((⟨none, DiskState.corrupt "bad json", DiskState.absent,
       LLMResult.success "r", none⟩ : World).d1 = DiskState.corrupt "bad json" →
      Event.logWarning ("Failed to load cache file \x27" ++ cache_file ++ "\x27: "
          ++ "bad json" ++ ". Starting with empty cache.")
        ∈ (call_llm "p" true
          ⟨none, DiskState.corrupt "bad json", DiskState.absent,
           LLMResult.success "r", none⟩).trace) :=
  cache_load_failure_resilience "p" "bad json" _ (Or.inl rfl)

/-- Claim C4: when the endpoint call succeeds but writing the cache file
fails, `call_llm` logs the write failure at error severity and still
returns the live (trimmed) response. -/
theorem write_failure_still_returns (p raw e : String) (w : World)
    (hm : lookupEntry (loadMap w.d1) p = none)
    (hl : w.llm = LLMResult.success raw)
    (hw : w.writeErr = some e) :
    (call_llm p true w).response = raw.trim ∧
    Event.logError ("Failed to save cache to \x27" ++ cache_file ++ "\x27: " ++ e)
      ∈ (call_llm p true w).trace := by
  simp [call_llm, liveCall, hm, hl, hw]

theorem write_failure_still_returns_witness :
    (call_llm "p" true
        ⟨none, DiskState.absent, DiskState.absent,
         LLMResult.success " R ", some "denied"⟩).response = " R ".trim ∧
    Event.logError ("Failed to save cache to \x27" ++ cache_file ++ "\x27: "
        ++ "denied")
      ∈ (call_llm "p" true
        ⟨none, DiskState.absent, DiskState.absent,
         LLMResult.success " R ", some "denied"⟩).trace :=
  write_failure_still_returns "p" " R " "denied" _ rfl rfl rfl

/-- Claim C6: on a successful live call with caching enabled (and a
successful save), the mapping written to the cache file is the mapping
obtained by the second, independent reload (`d2`, not the mapping loaded
before the lookup) with the entry for the prompt inserted or overwritten;
the new entry maps the prompt to the trimmed response, and every entry of
the reloaded mapping at a key other than the prompt is unchanged. -/
theorem success_saves_reloaded_cache (p raw : String) (w : World)
    (hm : lookupEntry (loadMap w.d1) p = none)
    (hl : w.llm = LLMResult.success raw)
    (hw : w.writeErr = none) :
    (call_llm p true w).written = some (insertEntry (loadMap w.d2) p raw.trim) ∧
    lookupEntry (insertEntry (loadMap w.d2) p raw.trim) p = some raw.trim ∧
    ∀ k, k ≠ p → lookupEntry (insertEntry (loadMap w.d2) p raw.trim) k
          = lookupEntry (loadMap w.d2) k := by
  refine ⟨?_, lookup_insertEntry_self _ _ _,
    fun k hk => lookup_insertEntry_ne _ _ _ _ hk⟩
  simp [call_llm, liveCall, hm, hl, hw]

theorem success_saves_reloaded_cache_witness :
    (call_llm "p" true
        ⟨none, DiskState.absent, DiskState.valid [("q", "s")],
         LLMResult.success "R", none⟩).written
      = some (insertEntry [("q", "s")] "p" ("R".trim)) ∧
    lookupEntry (insertEntry [("q", "s")] "p" ("R".trim)) "q" = some "s" :=
  ⟨(success_saves_reloaded_cache "p" "R"
      ⟨none, DiskState.absent, DiskState.valid [("q", "s")],
       LLMResult.success "R", none⟩ rfl rfl rfl).1,
   ((success_saves_reloaded_cache "p" "R"
      ⟨none, DiskState.absent, DiskState.valid [("q", "s")],
       LLMResult.success "R", none⟩ rfl rfl rfl).2.2 "q" (by decide)).trans rfl⟩

/-- Claim C7: on the live path (caching disabled, or a cache miss) the
model identifier is read from the `OLLAMA_MODEL` environment variable
with the fixed default as fallback, and on success the returned text is
the generated text with surrounding whitespace trimmed. -/
theorem live_call_model_and_trim (p raw : String) (uc : Bool) (w : World)
    (hm : uc = true → lookupEntry (loadMap w.d1) p = none)
    (hl : w.llm = LLMResult.success raw) :
    (call_llm p uc w).response = raw.trim ∧
    Event.generate (w.envModel.getD default_model) p
      ∈ (call_llm p uc w).trace := by
  cases uc with
  | false => simp [call_llm, liveCall, hl, modelOf]
  | true =>
      have hm' := hm rfl
      cases hw : w.writeErr <;>
        simp [call_llm, liveCall, hl, hm', hw, modelOf]

theorem live_call_model_and_trim_witness :
    (call_llm "p" false
        ⟨some "llama3", DiskState.valid [("p", "r")], DiskState.absent,
         LLMResult.success " R ", none⟩).response = " R ".trim ∧
    Event.generate ((some "llama3").getD default_model) "p"
      ∈ (call_llm "p" false
        ⟨some "llama3", DiskState.valid [("p", "r")], DiskState.absent,
         LLMResult.success " R ", none⟩).trace :=
  live_call_model_and_trim "p" " R " false _
    (fun h => absurd h (by decide)) rfl

/-- Claim C8: when the endpoint call fails with caching enabled, the call
returns the sentinel string immediately and writes nothing to the cache
file, so the error string is never stored in the cache. -/
theorem endpoint_failure_leaves_cache_unwritten (p e : String) (w : World)
    (hm : lookupEntry (loadMap w.d1) p = none)
    (hl : w.llm = LLMResult.failure e) :
    (call_llm p true w).response = errorMessage e ∧
    (call_llm p true w).written = none := by
  simp [call_llm, liveCall, hm, hl]

theorem endpoint_failure_leaves_cache_unwritten_witness :
    (call_llm "p" true
        ⟨none, DiskState.absent, DiskState.valid [("q", "s")],
         LLMResult.failure "down", none⟩).response = errorMessage "down" ∧
    (call_llm "p" true
        ⟨none, DiskState.absent, DiskState.valid [("q", "s")],
         LLMResult.failure "down", none⟩).written = none :=
  endpoint_failure_leaves_cache_unwritten "p" "down" _ rfl rfl

/-- Claim C9: the cache is keyed on the prompt alone, not on the model
identifier: a hit is served from the cache, without invoking the
endpoint, under every model-identifier environment setting, so two worlds
sharing the cached mapping return the same cached response however their
environment (and everything else) differs. -/
theorem cache_keying_ignores_model (p r : String) (m : List (String × String))
    (w w' : World) (hd : w.d1 = DiskState.valid m)
    (hd' : w'.d1 = DiskState.valid m) (hr : lookupEntry m p = some r) :
    (call_llm p true w).response = r ∧
    (call_llm p true w').response = r ∧
    callsEndpoint (call_llm p true w).trace = false ∧
    callsEndpoint (call_llm p true w').trace = false := by
  simp only [call_llm, hd, hd', loadMap, loadEvents, hr]
  simp [callsEndpoint]

theorem cache_keying_ignores_model_witness :
    (call_llm "p" true
        ⟨none, DiskState.valid [("p", "r")], DiskState.absent,
         LLMResult.success "x", none⟩).response = "r" ∧
    (call_llm "p" true
        ⟨some "other-model", DiskState.valid [("p", "r")], DiskState.absent,
         LLMResult.success "y", none⟩).response = "r" ∧
    callsEndpoint (call_llm "p" true
        ⟨none, DiskState.valid [("p", "r")], DiskState.absent,
         LLMResult.success "x", none⟩).trace = false ∧
    callsEndpoint (call_llm "p" true
        ⟨some "other-model", DiskState.valid [("p", "r")], DiskState.absent,
         LLMResult.success "y", none⟩).trace = false :=
  cache_keying_ignores_model "p" "r" [("p", "r")] _ _ rfl rfl (by decide)

end CallLLM
